import Mathlib

/-!
# Verification of the Nest Matters unified climate proxy

A shallow embedding of `custom_components/nest_matters/climate.py`:
the `NestMattersClimate` entity, a stateless projection over two external
source entities (the "Matter"/primary and "Google"/secondary records) held
in the host's state registry.

Python values that flow through the adapter (attribute values, service-call
payloads) are modelled by the inductive type `Value`; a state record
(`homeassistant.core.State`) by `SourceState` (its `state` string and its
`attributes` mapping, as an association list whose truthiness is
non-emptiness, mirroring Python's `if matter_state and
matter_state.attributes:` guards); the registry `hass.states` by a partial
map `Registry`. Read accessors become pure functions of the configuration
and the registry; command forwarding returns the list of outbound service
calls it issues; the attach/detach lifecycle becomes a transition system
over `SystemState`, whose event-bus part (listener dispatch) is modelled
from the spec's external-interface description.
-/

namespace NestMatters

/-- A Python value as it appears in attribute maps and service payloads:
`None`, a number (temperatures, humidity — modelled over `ℚ`), a string, or
a list of strings (mode lists). -/
inductive Value where
  | vNull : Value
  | vNum (q : ℚ) : Value
  | vStr (s : String) : Value
  | vStrList (l : List String) : Value
  deriving DecidableEq, Repr

/-- A source entity's record in the host registry (`homeassistant.core.State`):
its raw state string and its attribute mapping. -/
structure SourceState where
  state : String
  attributes : List (String × Value)
  deriving DecidableEq, Repr

/-- The host's state registry, `hass.states`: `get entity_id` returns the
record or `none` (`hass.states.get` in the source). -/
def Registry := String → Option SourceState

/-- `attributes.get(key)` on a Python dict: the first binding of `key`, if any. -/
def attrGet (attrs : List (String × Value)) (key : String) : Option Value :=
  (attrs.find? (fun p => p.1 == key)).map (fun p => p.2)

/-- `attributes.get(key, d)` on a Python dict: the bound value (even if it is
`None`) when the key is present, else the default `d`. -/
def attrGetD (attrs : List (String × Value)) (key : String) (d : Value) : Value :=
  (attrGet attrs key).getD d

/-- The proxy's configuration: display name, the two source entity ids and the
config-entry id (`NestMattersClimate.__init__`). -/
structure ProxyConfig where
  name : String
  matter_entity_id : String
  google_entity_id : String
  entry_id : String
  deriving DecidableEq, Repr

/-- `unique_id = f"{DOMAIN}_{entry_id}"` with `DOMAIN = "nest_matters"`. -/
def unique_id (cfg : ProxyConfig) : String :=
  "nest_matters" ++ "_" ++ cfg.entry_id

/-- `current_temperature`: the primary (Matter) record's
`current_temperature` attribute; `none` when the record is absent, its
attribute dict is empty (Python falsy), or the key is absent. -/
def current_temperature (cfg : ProxyConfig) (reg : Registry) : Option Value :=
  match reg cfg.matter_entity_id with
  | some st => if st.attributes.isEmpty then none else attrGet st.attributes "current_temperature"
  | none => none

/-- `target_temperature`: the primary (Matter) record's `temperature`
attribute, with the same fallbacks. -/
def target_temperature (cfg : ProxyConfig) (reg : Registry) : Option Value :=
  match reg cfg.matter_entity_id with
  | some st => if st.attributes.isEmpty then none else attrGet st.attributes "temperature"
  | none => none

/-- `hvac_mode`: the secondary (Google) record's raw state string itself;
`none` when the record is absent. -/
def hvac_mode (cfg : ProxyConfig) (reg : Registry) : Option String :=
  match reg cfg.google_entity_id with
  | some st => some st.state
  | none => none

/-- `hvac_modes`: the secondary record's `hvac_modes` attribute with default
empty list (`attributes.get("hvac_modes", [])`). -/
def hvac_modes (cfg : ProxyConfig) (reg : Registry) : Value :=
  match reg cfg.google_entity_id with
  | some st => if st.attributes.isEmpty then Value.vStrList [] else attrGetD st.attributes "hvac_modes" (Value.vStrList [])
  | none => Value.vStrList []

/-- `fan_mode`: the secondary record's `fan_mode` attribute; `none` on any
absence. -/
def fan_mode (cfg : ProxyConfig) (reg : Registry) : Option Value :=
  match reg cfg.google_entity_id with
  | some st => if st.attributes.isEmpty then none else attrGet st.attributes "fan_mode"
  | none => none

/-- `fan_modes`: the secondary record's `fan_modes` attribute with default
empty list. -/
def fan_modes (cfg : ProxyConfig) (reg : Registry) : Value :=
  match reg cfg.google_entity_id with
  | some st => if st.attributes.isEmpty then Value.vStrList [] else attrGetD st.attributes "fan_modes" (Value.vStrList [])
  | none => Value.vStrList []

/-- `current_humidity`: the secondary record's `current_humidity` attribute;
`none` on any absence. -/
def current_humidity (cfg : ProxyConfig) (reg : Registry) : Option Value :=
  match reg cfg.google_entity_id with
  | some st => if st.attributes.isEmpty then none else attrGet st.attributes "current_humidity"
  | none => none

/-- `min_temp`: the primary record's `min_temp` attribute with default 7
(`attributes.get("min_temp", 7)`, and `return 7` on an absent record or
empty attribute dict). -/
def min_temp (cfg : ProxyConfig) (reg : Registry) : Value :=
  match reg cfg.matter_entity_id with
  | some st => if st.attributes.isEmpty then Value.vNum 7 else attrGetD st.attributes "min_temp" (Value.vNum 7)
  | none => Value.vNum 7

/-- `max_temp`: the primary record's `max_temp` attribute with default 35. -/
def max_temp (cfg : ProxyConfig) (reg : Registry) : Value :=
  match reg cfg.matter_entity_id with
  | some st => if st.attributes.isEmpty then Value.vNum 35 else attrGetD st.attributes "max_temp" (Value.vNum 35)
  | none => Value.vNum 35

/-- `available`: `matter_state is not None and matter_state.state !=
"unavailable" and google_state is not None and google_state.state !=
"unavailable"`. -/
def available (cfg : ProxyConfig) (reg : Registry) : Bool :=
  match reg cfg.matter_entity_id, reg cfg.google_entity_id with
  | some m, some g => m.state != "unavailable" && g.state != "unavailable"
  | _, _ => false

/-! ## Command forwarding -/

/-- An outbound service call, as issued by `hass.services.async_call(domain,
service, data)`. -/
structure ServiceCall where
  domain : String
  service : String
  data : List (String × Value)
  deriving DecidableEq, Repr

/-- `kwargs.get(key)` in Python: `None` when the key is absent, and the stored
value otherwise — so a key bound to `None` is indistinguishable from an absent
key when the caller then tests `is None`. -/
def kwargsGet (kwargs : List (String × Value)) (key : String) : Option Value :=
  match attrGet kwargs key with
  | none => none
  | some Value.vNull => none
  | some v => some v

/-- `async_set_temperature(**kwargs)`: reads `kwargs.get(ATTR_TEMPERATURE)`
(`ATTR_TEMPERATURE = "temperature"`); returns without a call when it is
`None`, else issues one `climate.set_temperature` call to the primary entity
with that value. The result is the list of outbound calls issued. -/
def async_set_temperature (cfg : ProxyConfig) (kwargs : List (String × Value)) : List ServiceCall :=
  match kwargsGet kwargs "temperature" with
  | none => []
  | some v =>
      [{ domain := "climate", service := "set_temperature",
         data := [("entity_id", Value.vStr cfg.matter_entity_id), ("temperature", v)] }]

/-- `async_set_hvac_mode(hvac_mode)`: issues one `climate.set_hvac_mode` call
to the secondary (Google) entity with the given mode, unconditionally. -/
def async_set_hvac_mode (cfg : ProxyConfig) (mode : String) : List ServiceCall :=
  [{ domain := "climate", service := "set_hvac_mode",
     data := [("entity_id", Value.vStr cfg.google_entity_id), ("hvac_mode", Value.vStr mode)] }]

/-- `async_set_fan_mode(fan_mode)`: issues one `climate.set_fan_mode` call to
the secondary (Google) entity with the given mode, unconditionally. -/
def async_set_fan_mode (cfg : ProxyConfig) (mode : String) : List ServiceCall :=
  [{ domain := "climate", service := "set_fan_mode",
     data := [("entity_id", Value.vStr cfg.google_entity_id), ("fan_mode", Value.vStr mode)] }]

/-! ## Lifecycle: attach, detach, notifications

`async_added_to_hass` registers one listener (via
`async_track_state_change_event`) covering both source entity ids and keeps
the returned unsubscribe handle in `self._remove_listeners`;
`async_will_remove_from_hass` invokes every stored handle. The host event
bus itself is outside this repository; following the spec's external
interface ("subscribe-to-state-change(entityIds, handler) → fires handler on
any state transition of either id", handles "released deterministically on
teardown"), a subscription is a handle plus the entity-id list it covers,
and unsubscribing removes that handle from the bus's active set. -/

/-- An active subscription on the host event bus: its handle and the entity
ids it covers (the handler is always `_handle_source_state_change`). -/
structure Listener where
  handle : Nat
  entity_ids : List String
  deriving DecidableEq, Repr

/-- An observable action of the proxy: a re-publish of its state
(`async_write_ha_state`) or an invocation of `async_update` (whose body is
`pass`). -/
inductive Event where
  | writeHaState : Event
  | updateCalled : Event
  deriving DecidableEq, Repr

/-- The proxy's own mutable field: `self._remove_listeners`, the unsubscribe
handles collected at attach time. -/
structure ProxyState where
  remove_listeners : List Nat
  deriving DecidableEq, Repr

/-- The system: the proxy's field, the bus's active subscriptions, a fresh
handle counter, and the trace of observable events. -/
structure SystemState where
  proxy : ProxyState
  activeListeners : List Listener
  nextHandle : Nat
  trace : List Event
  deriving DecidableEq, Repr

/-- The state right after `__init__`: `self._remove_listeners = []`, no
subscription on the bus, nothing observed. -/
def initState : SystemState :=
  { proxy := { remove_listeners := [] }, activeListeners := [], nextHandle := 0, trace := [] }

/-- `async_update`: its body is `pass` — no state is written, no listener
touched; only the invocation itself is recorded on the trace. -/
def async_update (s : SystemState) : SystemState :=
  { s with trace := s.trace ++ [Event.updateCalled] }

/-- `_handle_source_state_change(event)`: calls `self.async_write_ha_state()`,
re-publishing the proxy's state. -/
def handle_source_state_change (s : SystemState) : SystemState :=
  { s with trace := s.trace ++ [Event.writeHaState] }

/-- `async_added_to_hass`: subscribes one listener covering
`[matter_entity_id, google_entity_id]` via `async_track_state_change_event`,
appends the returned unsubscribe handle to `self._remove_listeners`, then
awaits `self.async_update()`. -/
def async_added_to_hass (cfg : ProxyConfig) (s : SystemState) : SystemState :=
  let h := s.nextHandle
  let s1 : SystemState :=
    { s with
      activeListeners := s.activeListeners ++ [{ handle := h, entity_ids := [cfg.matter_entity_id, cfg.google_entity_id] }],
      nextHandle := s.nextHandle + 1,
      proxy := { remove_listeners := s.proxy.remove_listeners ++ [h] } }
  async_update s1

/-- Invoking one stored unsubscribe handle: the bus drops the subscription
with that handle (modelled from the spec: handles are "released
deterministically on teardown"; releasing an already-released handle leaves
the bus unchanged). -/
def removeListener (h : Nat) (ls : List Listener) : List Listener :=
  ls.filter (fun l => l.handle != h)

/-- `async_will_remove_from_hass`: `for remove_listener in
self._remove_listeners: remove_listener()` — invokes every stored handle in
order; the list itself is not cleared. -/
def async_will_remove_from_hass (s : SystemState) : SystemState :=
  { s with
    activeListeners := s.proxy.remove_listeners.foldl (fun acc h => removeListener h acc) s.activeListeners }

/-- Modelled from the spec: the host event bus, on a state transition of
`entity_id`, fires the handler of every active subscription whose entity-id
list contains `entity_id` (the proxy's handler is always
`_handle_source_state_change`). -/
def notify_state_change (entity_id : String) (s : SystemState) : SystemState :=
  (s.activeListeners.filter (fun l => l.entity_ids.contains entity_id)).foldl
    (fun acc _ => handle_source_state_change acc) s

/-- The number of re-publishes (`async_write_ha_state` calls) on a trace. -/
def republishCount (tr : List Event) : Nat :=
  (tr.filter (fun e => e == Event.writeHaState)).length

/-! ## Concrete fixtures (the spec's §8 scenario) -/

/-- The scenario configuration: the proxy over `climate.matter` (primary)
and `climate.google` (secondary). -/
def cfgW : ProxyConfig :=
  { name := "Nest", matter_entity_id := "climate.matter",
    google_entity_id := "climate.google", entry_id := "e1" }

/-- The scenario primary record: `{state: "heat", attributes:
{current_temperature: 19.5, temperature: 21, min_temp: 10, max_temp: 30}}`. -/
def stM : SourceState :=
  { state := "heat",
    attributes := [("current_temperature", Value.vNum (39 / 2)), ("temperature", Value.vNum 21),
                   ("min_temp", Value.vNum 10), ("max_temp", Value.vNum 30)] }

/-- The scenario secondary record: `{state: "heat", attributes: {hvac_modes:
["heat","off"], fan_mode: "low", fan_modes: ["low","high"],
current_humidity: 45}}`. -/
def stG : SourceState :=
  { state := "heat",
    attributes := [("hvac_modes", Value.vStrList ["heat", "off"]), ("fan_mode", Value.vStr "low"),
                   ("fan_modes", Value.vStrList ["low", "high"]),
                   ("current_humidity", Value.vNum 45)] }

/-- A registry holding exactly the two scenario records. -/
def regA : Registry := fun id =>
  if id = "climate.matter" then some stM
  else if id = "climate.google" then some stG
  else none

/-- A registry with the same two source records but different other contents
(an unrelated third entity). -/
def regB : Registry := fun id =>
  if id = "climate.matter" then some stM
  else if id = "climate.google" then some stG
  else if id = "other" then some { state := "idle", attributes := [] }
  else none

/-- A registry whose secondary record exists but reads `"unavailable"`. -/
def regGoogleDown : Registry := fun id =>
  if id = "climate.matter" then some stM
  else if id = "climate.google" then some { state := "unavailable", attributes := [] }
  else none

/-! ## Helper lemmas -/

/-- Looking an attribute up in an empty mapping yields nothing. -/
theorem attrGet_nil (key : String) : attrGet [] key = none := rfl

/-- The Python truthiness guard `if st.attributes:` before a `get` with no
default changes nothing: an empty dict has no key anyway. -/
theorem guarded_attrGet (st : SourceState) (key : String) :
    (if st.attributes.isEmpty then none else attrGet st.attributes key) =
      attrGet st.attributes key := by
  by_cases h : st.attributes.isEmpty
  · rw [if_pos h, List.isEmpty_iff.mp h, attrGet_nil]
  · rw [if_neg h]

/-- The same for `get` with a default: an empty dict falls back to the default. -/
theorem guarded_attrGetD (st : SourceState) (key : String) (d : Value) :
    (if st.attributes.isEmpty then d else attrGetD st.attributes key d) =
      attrGetD st.attributes key d := by
  by_cases h : st.attributes.isEmpty
  · rw [if_pos h, List.isEmpty_iff.mp h]; rfl
  · rw [if_neg h]

/-- Detaching filters the bus's subscriptions down to those whose handle is
not among the stored unsubscribe handles. -/
theorem foldl_removeListener_eq_filter (hs : List Nat) (ls : List Listener) :
    hs.foldl (fun acc h => removeListener h acc) ls =
      ls.filter (fun l => !hs.contains l.handle) := by
  induction hs generalizing ls with
  | nil => simp
  | cons h t ih =>
      rw [List.foldl_cons, ih, removeListener, List.filter_filter]
      congr 1
      funext l
      by_cases hh : l.handle = h <;> simp [hh]

/-! ## C1: availability -/

/-- C1: `available` is true exactly when both source records exist and
neither raw state string is `"unavailable"`; in particular it is false
whenever the primary record is absent or reads `"unavailable"` (regardless
of the secondary), and true whenever both records are present and neither
reads `"unavailable"`. -/
theorem available_iff_both_present_not_unavailable (cfg : ProxyConfig) (reg : Registry) :
    (available cfg reg = true ↔
      ∃ m g, reg cfg.matter_entity_id = some m ∧ reg cfg.google_entity_id = some g ∧
        m.state ≠ "unavailable" ∧ g.state ≠ "unavailable") ∧
    ((reg cfg.matter_entity_id = none ∨
        (∃ m, reg cfg.matter_entity_id = some m ∧ m.state = "unavailable")) →
      available cfg reg = false) := by
  constructor
  · unfold available
    rcases hm : reg cfg.matter_entity_id with _ | m <;>
      rcases hg : reg cfg.google_entity_id with _ | g <;>
      simp [bne_iff_ne]
  · rintro (h | ⟨m, hm, hs⟩) <;> unfold available
    · rw [h]
    · rw [hm]
      rcases reg cfg.google_entity_id with _ | g
      · rfl
      · simp [hs]

/-! ## C2: read accessors -/

/-- C2: each read accessor extracts exactly the spec's attribute of its
designated source, with the defined fallback when the record or the
attribute is absent: `current_temperature` and `target_temperature` read
`current_temperature` resp. `temperature` from the primary record (else
`none`), `hvac_mode` is the secondary record's raw state (else `none`),
`hvac_modes` and `fan_modes` read `hvac_modes` resp. `fan_modes` from the
secondary (else the empty list), `fan_mode` and `current_humidity` read
`fan_mode` resp. `current_humidity` from the secondary (else `none`). -/
theorem read_accessors_extract_spec_attributes (cfg : ProxyConfig) (reg : Registry) :
    current_temperature cfg reg =
      (reg cfg.matter_entity_id).bind (fun st => attrGet st.attributes "current_temperature") ∧
    target_temperature cfg reg =
      (reg cfg.matter_entity_id).bind (fun st => attrGet st.attributes "temperature") ∧
    hvac_mode cfg reg = (reg cfg.google_entity_id).map SourceState.state ∧
    hvac_modes cfg reg =
      (((reg cfg.google_entity_id).bind (fun st => attrGet st.attributes "hvac_modes")).getD
        (Value.vStrList [])) ∧
    fan_mode cfg reg = (reg cfg.google_entity_id).bind (fun st => attrGet st.attributes "fan_mode") ∧
    fan_modes cfg reg =
      (((reg cfg.google_entity_id).bind (fun st => attrGet st.attributes "fan_modes")).getD
        (Value.vStrList [])) ∧
    current_humidity cfg reg =
      (reg cfg.google_entity_id).bind (fun st => attrGet st.attributes "current_humidity") := by
  refine ⟨?_, ?_, ?_, ?_, ?_, ?_, ?_⟩
  · unfold current_temperature
    rcases reg cfg.matter_entity_id with _ | m
    · rfl
    · exact guarded_attrGet m "current_temperature"
  · unfold target_temperature
    rcases reg cfg.matter_entity_id with _ | m
    · rfl
    · exact guarded_attrGet m "temperature"
  · unfold hvac_mode
    rcases reg cfg.google_entity_id with _ | g <;> rfl
  · unfold hvac_modes
    rcases reg cfg.google_entity_id with _ | g
    · rfl
    · exact (guarded_attrGetD g "hvac_modes" (Value.vStrList [])).trans rfl
  · unfold fan_mode
    rcases reg cfg.google_entity_id with _ | g
    · rfl
    · exact guarded_attrGet g "fan_mode"
  · unfold fan_modes
    rcases reg cfg.google_entity_id with _ | g
    · rfl
    · exact (guarded_attrGetD g "fan_modes" (Value.vStrList [])).trans rfl
  · unfold current_humidity
    rcases reg cfg.google_entity_id with _ | g
    · rfl
    · exact guarded_attrGet g "current_humidity"

/-! ## C3: temperature forwarding -/

/-- C3: with the temperature argument absent (key missing, or bound to
`None`), `async_set_temperature` issues no outbound call; with a present
value it issues exactly the one `climate.set_temperature` call addressed to
the primary entity carrying exactly that value, and nothing else. -/
theorem set_temperature_noop_or_one_call (cfg : ProxyConfig) (kwargs : List (String × Value)) :
    (kwargsGet kwargs "temperature" = none → async_set_temperature cfg kwargs = []) ∧
    (∀ v, kwargsGet kwargs "temperature" = some v →
      async_set_temperature cfg kwargs =
        [{ domain := "climate", service := "set_temperature",
           data := [("entity_id", Value.vStr cfg.matter_entity_id), ("temperature", v)] }]) := by
  constructor
  · intro h
    unfold async_set_temperature
    rw [h]
  · intro v h
    unfold async_set_temperature
    rw [h]

/-- C3 instance: `setTemperature(None)` is silent and `setTemperature(21.5)`
issues one call with 21.5 to the primary entity, on a concrete
configuration. -/
theorem set_temperature_concrete :
    async_set_temperature ⟨"Nest", "climate.matter", "climate.google", "e1"⟩
        [("temperature", Value.vNull)] = [] ∧
    async_set_temperature ⟨"Nest", "climate.matter", "climate.google", "e1"⟩
        [("temperature", Value.vNum (43 / 2))] =
      [{ domain := "climate", service := "set_temperature",
         data := [("entity_id", Value.vStr "climate.matter"),
                  ("temperature", Value.vNum (43 / 2))] }] := by
  constructor <;> rfl

/-! ## C7: temperature limits -/

/-- C7: when the primary record is present and carries the `min_temp`
(resp. `max_temp`) attribute, `min_temp`/`max_temp` return that
source-provided value; when the record is absent or the attribute is
absent they return exactly 7 resp. 35. -/
theorem min_max_temp_source_or_default (cfg : ProxyConfig) (reg : Registry) :
    (∀ st v, reg cfg.matter_entity_id = some st →
      attrGet st.attributes "min_temp" = some v → min_temp cfg reg = v) ∧
    (∀ st v, reg cfg.matter_entity_id = some st →
      attrGet st.attributes "max_temp" = some v → max_temp cfg reg = v) ∧
    ((reg cfg.matter_entity_id = none ∨
        (∃ st, reg cfg.matter_entity_id = some st ∧ attrGet st.attributes "min_temp" = none)) →
      min_temp cfg reg = Value.vNum 7) ∧
    ((reg cfg.matter_entity_id = none ∨
        (∃ st, reg cfg.matter_entity_id = some st ∧ attrGet st.attributes "max_temp" = none)) →
      max_temp cfg reg = Value.vNum 35) := by
  refine ⟨?_, ?_, ?_, ?_⟩
  · intro st v hst hv
    unfold min_temp
    rw [hst]
    exact (guarded_attrGetD st "min_temp" (Value.vNum 7)).trans (by rw [attrGetD, hv]; rfl)
  · intro st v hst hv
    unfold max_temp
    rw [hst]
    exact (guarded_attrGetD st "max_temp" (Value.vNum 35)).trans (by rw [attrGetD, hv]; rfl)
  · rintro (h | ⟨st, hst, hv⟩) <;> unfold min_temp
    · rw [h]
    · rw [hst]
      exact (guarded_attrGetD st "min_temp" (Value.vNum 7)).trans (by rw [attrGetD, hv]; rfl)
  · rintro (h | ⟨st, hst, hv⟩) <;> unfold max_temp
    · rw [h]
    · rw [hst]
      exact (guarded_attrGetD st "max_temp" (Value.vNum 35)).trans (by rw [attrGetD, hv]; rfl)

/-- C7 witness: on a record with `min_temp = 10` and `max_temp = 30` the
limits are the source's; on an empty registry they are exactly 7 and 35. -/
theorem min_max_temp_witness :
    min_temp ⟨"Nest", "climate.matter", "climate.google", "e1"⟩
        (fun id => if id = "climate.matter" then
          some ⟨"heat", [("min_temp", Value.vNum 10), ("max_temp", Value.vNum 30)]⟩ else none) =
      Value.vNum 10 ∧
    max_temp ⟨"Nest", "climate.matter", "climate.google", "e1"⟩ (fun _ => none) =
      Value.vNum 35 := by
  constructor
  · exact (min_max_temp_source_or_default _ _).1
      ⟨"heat", [("min_temp", Value.vNum 10), ("max_temp", Value.vNum 30)]⟩
      (Value.vNum 10) (by decide) (by decide)
  · exact (min_max_temp_source_or_default _ _).2.2.2 (Or.inl rfl)

/-! ## C8: mode forwarding -/

/-- C8: for every mode value, `async_set_hvac_mode` (resp.
`async_set_fan_mode`) issues exactly one `climate.set_hvac_mode`
(resp. `climate.set_fan_mode`) call addressed to the secondary entity and
carrying that mode unvalidated; no call addresses the primary entity. -/
theorem mode_forwarding_one_call_to_secondary (cfg : ProxyConfig) (mode : String) :
    async_set_hvac_mode cfg mode =
      [{ domain := "climate", service := "set_hvac_mode",
         data := [("entity_id", Value.vStr cfg.google_entity_id),
                  ("hvac_mode", Value.vStr mode)] }] ∧
    async_set_fan_mode cfg mode =
      [{ domain := "climate", service := "set_fan_mode",
         data := [("entity_id", Value.vStr cfg.google_entity_id),
                  ("fan_mode", Value.vStr mode)] }] ∧
    (∀ c, c ∈ async_set_hvac_mode cfg mode ∨ c ∈ async_set_fan_mode cfg mode →
      attrGet c.data "entity_id" = some (Value.vStr cfg.google_entity_id)) := by
  refine ⟨rfl, rfl, ?_⟩
  rintro c (hc | hc) <;>
    · rw [List.mem_singleton.mp hc]
      rfl

/-! ## C4, C5: detach -/

/-- C4: detach (`async_will_remove_from_hass`) invokes every unsubscribe
handle stored at attach time, so no subscription whose handle the proxy
stored remains on the bus; running detach twice leaves the proxy and the
bus exactly as one run does; and on a proxy that was never attached
(`_remove_listeners` is the empty list of `__init__`) it is the identity —
in the model a total function, so there is nothing to throw. -/
theorem detach_unsubscribes_all_idempotent_safe (s : SystemState) :
    (∀ l, l ∈ (async_will_remove_from_hass s).activeListeners →
      l.handle ∉ s.proxy.remove_listeners) ∧
    async_will_remove_from_hass (async_will_remove_from_hass s) =
      async_will_remove_from_hass s ∧
    (s.proxy.remove_listeners = [] → async_will_remove_from_hass s = s) := by
  refine ⟨?_, ?_, ?_⟩
  · intro l hl
    simp only [async_will_remove_from_hass, foldl_removeListener_eq_filter,
      List.mem_filter] at hl
    simpa using hl.2
  · obtain ⟨⟨rl⟩, al, nh, tr⟩ := s
    simp only [async_will_remove_from_hass, foldl_removeListener_eq_filter]
    rw [List.filter_filter]
    simp
  · intro h
    obtain ⟨⟨rl⟩, al, nh, tr⟩ := s
    simp only at h
    subst h
    rfl

/-- C5: once detach has run on a system whose active subscriptions are
exactly the proxy's stored ones, a state-change notification of any entity
(in particular either source) is inert: no handler fires, nothing is
re-published, the system is unchanged. -/
theorem notify_after_detach_no_republish (s : SystemState) (eid : String)
    (h : ∀ l ∈ s.activeListeners, l.handle ∈ s.proxy.remove_listeners) :
    notify_state_change eid (async_will_remove_from_hass s) =
      async_will_remove_from_hass s := by
  have hempty : (async_will_remove_from_hass s).activeListeners = [] := by
    simp only [async_will_remove_from_hass, foldl_removeListener_eq_filter]
    rw [List.filter_eq_nil_iff]
    intro l hl
    simp [h l hl]
  unfold notify_state_change
  rw [hempty]
  rfl

/-- C5 witness: attach then detach on a fresh system; a notification of the
primary source id changes nothing. -/
theorem notify_after_detach_no_republish_witness :
    notify_state_change "climate.matter"
        (async_will_remove_from_hass
          (async_added_to_hass ⟨"Nest", "climate.matter", "climate.google", "e1"⟩ initState)) =
      async_will_remove_from_hass
        (async_added_to_hass ⟨"Nest", "climate.matter", "climate.google", "e1"⟩ initState) :=
  notify_after_detach_no_republish _ "climate.matter" (by decide)

/-! ## C6: attach -/

/-- C6 (against the claim's last part): on a fresh system, attach registers
exactly one listener, covering both source ids — after it, a state
transition of either id triggers exactly one re-publish — but the "initial
re-publish" step of attach is an invocation of `async_update`, whose body is
`pass`: the attach trace is exactly one `updateCalled` event and contains
zero re-publishes (`async_write_ha_state` is never called during attach). -/
theorem attach_registers_listener_but_republishes_nothing (cfg : ProxyConfig) :
    (async_added_to_hass cfg initState).activeListeners =
      [{ handle := 0, entity_ids := [cfg.matter_entity_id, cfg.google_entity_id] }] ∧
    (∀ eid, eid = cfg.matter_entity_id ∨ eid = cfg.google_entity_id →
      republishCount (notify_state_change eid (async_added_to_hass cfg initState)).trace =
        republishCount (async_added_to_hass cfg initState).trace + 1) ∧
    (async_added_to_hass cfg initState).trace = [Event.updateCalled] ∧
    republishCount (async_added_to_hass cfg initState).trace = 0 := by
  refine ⟨rfl, ?_, rfl, rfl⟩
  rintro eid (h | h) <;> subst h <;>
    simp [async_added_to_hass, async_update, initState, notify_state_change,
      handle_source_state_change, republishCount, List.filter] <;>
    decide

/-! ## C9: statelessness of reads -/

/-- C9: every read accessor is a pure function of the configuration and of
the registry's current records at the two source ids alone — the proxy's
own state is not even an input, nothing is mutated, and two invocations
against registries holding equal records for the two sources return equal
results, whatever else (prior reads, notifications, forwarded commands,
other entities' records) differs between the two moments. -/
theorem accessors_pure_functions_of_registry (cfg : ProxyConfig) (r1 r2 : Registry)
    (hm : r1 cfg.matter_entity_id = r2 cfg.matter_entity_id)
    (hg : r1 cfg.google_entity_id = r2 cfg.google_entity_id) :
    current_temperature cfg r1 = current_temperature cfg r2 ∧
    target_temperature cfg r1 = target_temperature cfg r2 ∧
    hvac_mode cfg r1 = hvac_mode cfg r2 ∧
    hvac_modes cfg r1 = hvac_modes cfg r2 ∧
    fan_mode cfg r1 = fan_mode cfg r2 ∧
    fan_modes cfg r1 = fan_modes cfg r2 ∧
    current_humidity cfg r1 = current_humidity cfg r2 ∧
    min_temp cfg r1 = min_temp cfg r2 ∧
    max_temp cfg r1 = max_temp cfg r2 ∧
    available cfg r1 = available cfg r2 := by
  unfold current_temperature target_temperature hvac_mode hvac_modes fan_mode
    fan_modes current_humidity min_temp max_temp available
  rw [hm, hg]
  exact ⟨rfl, rfl, rfl, rfl, rfl, rfl, rfl, rfl, rfl, rfl⟩

/-- C9 witness: against `regA` and `regB`, which agree on the two sources
and differ elsewhere, `available` (like every accessor) returns equal
results. -/
theorem accessors_pure_witness :
    available cfgW regA = available cfgW regB :=
  (accessors_pure_functions_of_registry cfgW regA regB rfl rfl).2.2.2.2.2.2.2.2.2

/-! ## C10: hvac_mode on an unavailable secondary -/

/-- C10: when the secondary record exists with raw state `"unavailable"`,
`hvac_mode` returns the literal string `"unavailable"` — not `none` — while
`available` is simultaneously false. -/
theorem hvac_mode_unavailable_while_not_available (cfg : ProxyConfig) (reg : Registry)
    (g : SourceState) (hg : reg cfg.google_entity_id = some g)
    (hs : g.state = "unavailable") :
    hvac_mode cfg reg = some "unavailable" ∧ available cfg reg = false := by
  constructor
  · unfold hvac_mode
    rw [hg]
    show some g.state = some "unavailable"
    rw [hs]
  · unfold available
    rw [hg]
    rcases reg cfg.matter_entity_id with _ | m
    · rfl
    · simp [hs]

/-- C10 witness: a registry whose secondary record reads `"unavailable"`;
`hvac_mode` reports the string while `available` is false. -/
theorem hvac_mode_unavailable_witness :
    hvac_mode cfgW regGoogleDown = some "unavailable" ∧
    available cfgW regGoogleDown = false :=
  hvac_mode_unavailable_while_not_available cfgW regGoogleDown
    { state := "unavailable", attributes := [] } (by decide) rfl

end NestMatters
